import Mathlib

/-!
Shallow embedding of the resilient multi-provider orchestration core of
brain-index-geo-monolith, together with proofs settling the frozen claims
about its specification.

Conventions of the embedding:
* Redis keys are modelled per concern as small state records; a key with a
  TTL is stored with its absolute expiry time, and a read at time `now`
  returns the value only while `now` is strictly below the expiry
  (Redis PX/EX semantics).
* Time is `Nat` milliseconds (seconds for the tenant rate limiter, which
  uses `EXPIRE key 60`).
* JavaScript `Math.round` agrees with Mathlib `round` on rationals
  (both are `floor (x + 1/2)`), so provider scores are embedded as `ℚ`
  and the aggregation uses `round`.
* Asynchronous provider calls are embedded by passing the outcome of each
  call explicitly (success value or thrown error), so a run of the
  orchestration is a pure function of those outcomes.
-/

/-- JavaScript `String.prototype.toLowerCase` on the ASCII range, embedded
character-by-character over the string's character list. -/
def jsToLower (s : String) : String := ⟨s.data.map Char.toLower⟩

/-- Whether `pat` occurs at the head of `hay`. -/
def headMatches : List Char → List Char → Bool
  | _, [] => true
  | [], _ :: _ => false
  | a :: as, b :: bs => a == b && headMatches as bs

/-- Whether `pat` occurs anywhere in `hay` (substring containment on
character lists). -/
def containsSeq : List Char → List Char → Bool
  | [], pat => pat.isEmpty
  | a :: t, pat => headMatches (a :: t) pat || containsSeq t pat

namespace Circuit

/-- Configuration read from the environment in `src/resilience/retry.ts`
(circuit-breaker section): `CB_WINDOW_MS`, `CB_FAIL_THRESHOLD`,
`CB_HALF_OPEN_MS`. -/
structure Config where
  winMs : Nat
  thld : Nat
  halfMs : Nat
deriving Repr, DecidableEq

/-- The defaults used by the source: 60000 ms window, threshold 5,
60000 ms half-open delay. -/
def defaultConfig : Config := ⟨60000, 5, 60000⟩

/-- Redis state of one provider's circuit: the `cb:p:state` string key,
the `cb:p:fails` counter with its optional absolute expiry, the
`cb:p:openAt` timestamp and the `cb:p:probe` key (value irrelevant,
only presence and expiry matter). -/
structure St where
  state : Option String
  failsVal : Option Nat
  failsExp : Option Nat
  openAt : Option Nat
  probeExp : Option Nat
deriving Repr, DecidableEq

/-- Reading the failure counter at time `now`: the key is gone once its
expiry has been reached. -/
def getFails (s : St) (now : Nat) : Option Nat :=
  match s.failsVal with
  | none => none
  | some v =>
    match s.failsExp with
    | none => some v
    | some e => if now < e then some v else none

/-- Whether the probe key is still alive at time `now`. -/
def probeAlive (s : St) (now : Nat) : Bool :=
  match s.probeExp with
  | none => false
  | some e => decide (now < e)

/-- `shouldShortCircuit` from `src/resilience/retry.ts`: returns whether the
call must be skipped, together with the updated Redis state.  The
`redis.set(keyProbe, '1', 'NX', 'PX', halfMs)` is the atomic single-probe
gate; when it wins, the state key is set to `half` and the caller is
admitted. -/
def shouldShortCircuit (cfg : Config) (s : St) (now : Nat) : Bool × St :=
  if s.state ≠ some "open" then (false, s)
  else
    let openedAt := s.openAt.getD 0
    if openedAt = 0 ∨ now - openedAt > cfg.halfMs then
      if probeAlive s now then (true, s)
      else
        (false, { s with probeExp := some (now + cfg.halfMs), state := some "half" })
    else (true, s)

/-- `recordSuccess` from `src/resilience/retry.ts`: in a non-`closed` state
the circuit is closed and the fail counter, open timestamp and probe key are
deleted; in the `closed` (or absent) state only the fail counter is
deleted. -/
def recordSuccess (s : St) : St :=
  match s.state with
  | some st =>
    if st ≠ "closed" then
      { state := some "closed", failsVal := none, failsExp := none,
        openAt := none, probeExp := none }
    else
      { s with failsVal := none, failsExp := none }
  | none => { s with failsVal := none, failsExp := none }

/-- `recordFailure` from `src/resilience/retry.ts`: `INCR` the fail counter
(a fresh key starts at 1 with no TTL), `PEXPIRE` it for the window when it
is the first failure, and open the circuit (recording `openedAt = now`)
when the post-increment count reaches the threshold.  Returns the
post-increment count and the updated state. -/
def recordFailure (cfg : Config) (s : St) (now : Nat) : Nat × St :=
  let cur := getFails s now
  let n := cur.getD 0 + 1
  let s1 : St := { s with failsVal := some n,
                          failsExp := if cur.isSome then s.failsExp else none }
  let s2 : St := if n = 1 then { s1 with failsExp := some (now + cfg.winMs) } else s1
  if n ≥ cfg.thld then (n, { s2 with state := some "open", openAt := some now })
  else (n, s2)

end Circuit

namespace Retry

/-- A JavaScript error as inspected by `defaultCanRetry` in
`src/resilience/retry.ts`: a message plus optional `status` /
`statusCode` numeric fields. -/
structure JsError where
  message : String
  status : Option Nat := none
  statusCode : Option Nat := none
deriving Repr, DecidableEq

/-- JavaScript `a || b` on an optional number: `0`, like a missing field,
is falsy. -/
def orFalsy (a : Option Nat) (b : Nat) : Nat :=
  match a with
  | some n => if n = 0 then b else n
  | none => b

/-- Case-insensitive substring test (membership of `pat` in `s`,
both compared lower-cased). -/
def containsCI (s pat : String) : Bool :=
  containsSeq (jsToLower s).data (jsToLower pat).data

/-- The test `/ECONN|ETIMEDOUT|aborted|timeout/i.test(msg)` used by
`defaultCanRetry` for network/timeout errors. -/
def netRegexTest (msg : String) : Bool :=
  containsCI msg "ECONN" || containsCI msg "ETIMEDOUT" ||
    containsCI msg "aborted" || containsCI msg "timeout"

/-- `defaultCanRetry` from `src/resilience/retry.ts`: retry on 429, on
5xx, or when the message carries a network/timeout marker. -/
def defaultCanRetry (e : JsError) : Bool :=
  let code := orFalsy e.status (orFalsy e.statusCode 0)
  if code = 429 then true
  else if code ≥ 500 then true
  else netRegexTest e.message

/-- The loop body of `withRetry`.  `outcome i` is the result of the
`(i+1)`-th invocation of the wrapped function; `fuel` is `attempts - i`
(the loop `for (i = 0; i <= attempts; i++)` exits via `throw` when
`i === attempts` or the error is not retryable).  Returns the final
outcome together with the total number of invocations performed. -/
def withRetryAux {τ : Type} (outcome : Nat → Except JsError τ)
    (canRetry : JsError → Bool) : Nat → Nat → Except JsError τ × Nat
  | fuel, i =>
    match outcome i with
    | .ok v => (.ok v, i + 1)
    | .error e =>
      match fuel with
      | 0 => (.error e, i + 1)
      | fuel' + 1 =>
        if canRetry e then withRetryAux outcome canRetry fuel' (i + 1)
        else (.error e, i + 1)

/-- `withRetry` from `src/resilience/retry.ts`, with the backoff sleeps
erased (they do not affect the result or the invocation count): run the
wrapped function, rethrowing the last error when the attempt budget is
exhausted or the error is not retryable. -/
def withRetry {τ : Type} (outcome : Nat → Except JsError τ)
    (attempts : Nat) (canRetry : JsError → Bool) : Except JsError τ × Nat :=
  withRetryAux outcome canRetry attempts 0

end Retry

namespace TenantRL

/-- The Redis key `rl:tenant:{id}` for one tenant: the counter value with
its optional absolute expiry (seconds). -/
structure St where
  count : Option Nat
  exp : Option Nat
deriving Repr, DecidableEq

/-- Reading the window counter at time `now` (seconds): gone once
expired. -/
def getCount (s : St) (now : Nat) : Option Nat :=
  match s.count with
  | none => none
  | some v =>
    match s.exp with
    | none => some v
    | some e => if now < e then some v else none

/-- `checkTenantRate` from `src/modules/analyzer/tenant-rl.ts`: `INCR` the
tenant counter (a fresh or expired key restarts at 1 with no TTL), set a
60 second expiry on the first increment, and accept exactly when the
post-increment count is at most the limit. -/
def checkTenantRate (limitPerMin : Nat) (s : St) (now : Nat) : Bool × St :=
  let cur := getCount s now
  let n := cur.getD 0 + 1
  let s1 : St := { count := some n, exp := if cur.isSome then s.exp else none }
  let s2 : St := if n = 1 then { s1 with exp := some (now + 60) } else s1
  (decide (n ≤ limitPerMin), s2)

/-- The tenant state after `m` submissions, all issued at time `now`
within one window, starting from no key. -/
def afterSubmits (limitPerMin now : Nat) : Nat → St
  | 0 => ⟨none, none⟩
  | m + 1 => (checkTenantRate limitPerMin (afterSubmits limitPerMin now m) now).2

end TenantRL

namespace Analyzer

/-- The two tiers of `src/index.ts` (`runMultiProviderAnalysis`). -/
inductive Tier
  | free
  | pro
deriving Repr, DecidableEq

/-- The value resolved by a provider's `analyze`: its name and score
(`meta` is irrelevant to the claims and omitted). -/
structure PResult where
  name : String
  score : ℚ
deriving Repr, DecidableEq

/-- The outcome of one provider's `analyze` call in the fan-out: fulfilled
with a result, or rejected with an error message. -/
inductive Outcome
  | ok (r : PResult)
  | fail (msg : String)
deriving Repr, DecidableEq

/-- The free-tier rescale inside the fan-out closure: a score above 20 is
forced to the 0-20 scale by `Math.round(score / 5)`. -/
def scaleForTier (tier : Tier) (r : PResult) : PResult :=
  if tier = .free ∧ r.score > 20 then { r with score := ((round (r.score / 5) : ℤ) : ℚ) }
  else r

/-- The raw fulfilled results of the fan-out, before any tier rescale. -/
def rawSuccesses (outcomes : List Outcome) : List PResult :=
  outcomes.filterMap fun o =>
    match o with
    | .ok r => some r
    | .fail _ => none

/-- `successfulResults` as collected from `Promise.allSettled`: the
fulfilled outcomes, each already rescaled by the tier rule. -/
def successes (tier : Tier) (outcomes : List Outcome) : List PResult :=
  outcomes.filterMap fun o =>
    match o with
    | .ok r => some (scaleForTier tier r)
    | .fail _ => none

/-- The fields of the stored `result` object that the claims mention. -/
structure JobResult where
  score : ℚ
  error : Option String
  providers : List (String × ℚ)
deriving Repr, DecidableEq

/-- One entry of the in-memory `jobResults` map. -/
structure JobRecord where
  status : String
  result : Option JobResult
deriving Repr, DecidableEq

/-- The record `runMultiProviderAnalysis` writes when it starts
processing a job. -/
def processingRecord : JobRecord := { status := "processing", result := none }

/-- The frontend display multiplier: free-tier scores (0-20) are scaled
to 0-100. -/
def displayMultiplier (tier : Tier) : ℚ := if tier = .free then 5 else 1

/-- The terminal `jobResults` record written by `runMultiProviderAnalysis`
in `src/index.ts` for the given provider outcomes.  With no successful
provider the function throws `All providers failed`, which its own
`catch` turns into a `completed` record carrying a fallback score
(5 free / 30 pro) and `error: Analysis failed`.  Otherwise `avgScore` is
`Math.round` of the mean of the (tier-rescaled) successful scores and the
stored score is `avgScore * displayMultiplier`. -/
def runMultiProviderAnalysis (tier : Tier) (outcomes : List Outcome) : JobRecord :=
  let succ := successes tier outcomes
  if succ.isEmpty then
    { status := "completed",
      result := some { score := if tier = .free then 5 else 30,
                       error := some "Analysis failed", providers := [] } }
  else
    let avgScore : ℤ := round ((succ.map (·.score)).sum / (succ.length : ℚ))
    { status := "completed",
      result := some { score := (avgScore : ℚ) * displayMultiplier tier,
                       error := none,
                       providers := succ.map fun r => (r.name, r.score) } }

/-- The monolith results route `GET /api/analyzer/results/:id` in
`src/index.ts`: return the stored record with 200, or 404 when the job id
is not in the `jobResults` map. -/
def getResults (store : List (String × JobRecord)) (id : String) :
    Nat × Option JobRecord :=
  match store.lookup id with
  | some r => (200, some r)
  | none => (404, none)

end Analyzer

namespace AIAnalyzer

/-- A `visibilityScore` row as updated by `AIAnalyzerService.analyze`. -/
structure Row where
  input : String
  chatGPTScore : Option ℚ
  googleScore : Option ℚ
  combinedScore : Option ℚ
  status : String
  error : Option String
deriving Repr, DecidableEq

/-- The Redis cache: key, cached row, absolute expiry. -/
def Cache := List (String × Row × Nat)

/-- `redis.get` on the cache at time `now`. -/
def cacheGet (c : Cache) (k : String) (now : Nat) : Option Row :=
  match List.lookup k c with
  | none => none
  | some (r, e) => if now < e then some r else none

/-- The row computed by `AIAnalyzerService.analyze` from the two provider
check outcomes (`none` = the check rejected and was caught as
`undefined`): the combined score is the weight-averaged mean of the
present scores; with both absent the row is `FAILED` with error
`All providers failed`. -/
def computeRow (input : String) (chat google : Option ℚ) : Row :=
  let combined : Option ℚ :=
    if chat.isSome || google.isSome then
      let w1 : ℚ := if chat.isSome then 1 else 0
      let w2 : ℚ := if google.isSome then 1 else 0
      let totalW : ℚ := if w1 + w2 = 0 then 1 else w1 + w2
      some ((chat.getD 0 + google.getD 0) / totalW)
    else none
  let status := if combined.isSome then "COMPLETED" else "FAILED"
  { input := input, chatGPTScore := chat, googleScore := google,
    combinedScore := combined, status := status,
    error := if combined.isSome then none else some "All providers failed" }

/-- `AIAnalyzerService.analyze` from the module service (`part_005`): the
cache is keyed by `visibility:` + the raw input; a live hit returns the
cached row without running the provider checks; a miss runs both checks,
stores the updated row with TTL `ttl`, and returns it.  The returned
`Bool` records whether the providers were invoked. -/
def analyze (ttl : Nat) (c : Cache) (input : String) (chat google : Option ℚ)
    (now : Nat) : Row × Cache × Bool :=
  let cacheKey := "visibility:" ++ input
  match cacheGet c cacheKey now with
  | some row => (row, c, false)
  | none =>
    let row := computeRow input chat google
    (row, (cacheKey, row, now + ttl) :: c, true)

end AIAnalyzer

namespace AnalyzerSvc

/-- The parsed analysis result of `AnalyzerService` (`part_004`). -/
structure AnalysisResult where
  chatgptScore : ℚ
  googleScore : ℚ
  analysis : String
deriving Repr, DecidableEq

/-- The Redis cache of `AnalyzerService`: key, cached result, absolute
expiry (seconds). -/
def Cache := List (String × AnalysisResult × Nat)

/-- `redis.get` on the cache at time `now`. -/
def cacheGet (c : Cache) (k : String) (now : Nat) : Option AnalysisResult :=
  match List.lookup k c with
  | none => none
  | some (r, e) => if now < e then some r else none

/-- `AnalyzerService.analyzeWithOpenAI` from `part_004`, with the OpenAI
request plus response parsing abstracted as `call` (its successfully
parsed result, or the thrown error message) and the random fallback of
`getFallbackResult` passed as `fb`.  The rate-limit check precedes the
cache read, so a rate-limit rejection (`rateOk = false`) lands in the
`catch` and yields the fallback without consulting the cache.  The cache
key is `analysis:` + the lower-cased (not trimmed) brand name; a live hit
returns the cached result without any OpenAI invocation; a successful
miss stores the result with the fixed `CACHE_TTL` of 3600 seconds.  The
returned `Bool` records whether OpenAI was invoked. -/
def analyzeWithOpenAI (c : Cache) (brandName : String) (rateOk : Bool)
    (call : Except String AnalysisResult) (fb : AnalysisResult) (now : Nat) :
    AnalysisResult × Cache × Bool :=
  if !rateOk then (fb, c, false)
  else
    let cacheKey := "analysis:" ++ jsToLower brandName
    match cacheGet c cacheKey now with
    | some r => (r, c, false)
    | none =>
      match call with
      | .ok r => (r, (cacheKey, r, now + 3600) :: c, true)
      | .error _ => (fb, c, true)

end AnalyzerSvc

namespace Providers

/-- The fields parsed out of a provider's JSON reply by
`ProvidersService.analyzeWithProvider` (`src/services/providers.service.ts`);
absent fields are `none`. -/
structure Parsed where
  chatgpt_score : Option ℚ := none
  google_score : Option ℚ := none
  analysis : Option String := none
deriving Repr, DecidableEq

/-- The outcome of `client.chat.completions.create` plus the JSON
extraction on its content: the call threw, or it returned content whose
brace-regex match is absent (`none`), fails `JSON.parse` (`.error msg`
carrying the thrown message), or parses (`.ok`). -/
inductive Call
  | throws (msg : String)
  | returns (jsonMatch : Option (Except String Parsed))
deriving Repr

/-- The `AnalysisResult` value resolved by `analyzeWithProvider`. -/
structure AResult where
  provider : String
  chatgpt_score : ℚ
  google_score : ℚ
  analysis : String
  error : Option String
deriving Repr, DecidableEq

/-- JavaScript `a || b` on an optional number (`0` is falsy). -/
def orFalsyQ (a : Option ℚ) (b : ℚ) : ℚ :=
  match a with
  | some x => if x = 0 then b else x
  | none => b

/-- JavaScript `a || b` on an optional string (`""` is falsy). -/
def orFalsyS (a : Option String) (b : String) : String :=
  match a with
  | some s => if s = "" then b else s
  | none => b

/-- `ProvidersService.analyzeWithProvider`: an unconfigured provider
resolves to a zero-score result with error `Provider not available`; a
throwing call, a reply with no brace match (the code throws
`No valid JSON in response` into its own catch), or a `JSON.parse`
failure all resolve through the catch to a zero-score result carrying
the error message.  Only a parsed reply yields a result without an
error field. -/
def analyzeWithProvider (providerName : String) (configured : Bool)
    (call : Call) : AResult :=
  if !configured then
    { provider := providerName, chatgpt_score := 0, google_score := 0,
      analysis := "Provider not configured", error := some "Provider not available" }
  else
    match call with
    | .throws msg =>
      { provider := providerName, chatgpt_score := 0, google_score := 0,
        analysis := "Error: " ++ msg, error := some msg }
    | .returns none =>
      { provider := providerName, chatgpt_score := 0, google_score := 0,
        analysis := "Error: " ++ "No valid JSON in response",
        error := some "No valid JSON in response" }
    | .returns (some (.error msg)) =>
      { provider := providerName, chatgpt_score := 0, google_score := 0,
        analysis := "Error: " ++ msg, error := some msg }
    | .returns (some (.ok p)) =>
      { provider := providerName,
        chatgpt_score := orFalsyQ p.chatgpt_score 0,
        google_score := orFalsyQ p.google_score 0,
        analysis := orFalsyS p.analysis "No analysis provided",
        error := none }

end Providers

namespace Controller

/-- A `visibilityScore` row as read back by the module results route
(`src/modules/analyzer/analyzer.controller.ts`). -/
structure DbRecord where
  status : String
  combinedScore : Option ℚ
  error : Option String
deriving Repr, DecidableEq

/-- The body sent by the module results route. -/
structure Body where
  status : String
  result : Option DbRecord
deriving Repr, DecidableEq

/-- `GET /results/:id` of `analyzerRoutes`: an unknown id gets a 404 with
body `status: pending`; a known record gets a 200 whose body carries the
record's status and, always, the whole record as `result`. -/
def getResults (db : List (String × DbRecord)) (id : String) : Nat × Body :=
  match db.lookup id with
  | some r => (200, { status := r.status, result := some r })
  | none => (404, { status := "pending", result := none })

end Controller

/-! ## Helper lemmas -/

/-- The tier-rescaled success list is the raw success list mapped through
the rescale. -/
theorem Analyzer.successes_eq_map (tier : Analyzer.Tier) (outcomes : List Analyzer.Outcome) :
    Analyzer.successes tier outcomes =
      (Analyzer.rawSuccesses outcomes).map (Analyzer.scaleForTier tier) := by
  induction outcomes with
  | nil => rfl
  | cons head tail ih =>
    cases head <;>
      simp [Analyzer.successes, Analyzer.rawSuccesses, List.filterMap_cons] at ih ⊢ <;>
      exact ih

/-- The pro tier rescale is the identity. -/
theorem Analyzer.scaleForTier_pro (r : Analyzer.PResult) :
    Analyzer.scaleForTier .pro r = r := by
  simp [Analyzer.scaleForTier]

/-- Closed form of `Circuit.recordFailure`: the post-increment count, and
each field of the updated state. -/
theorem Circuit.recordFailure_eq (cfg : Circuit.Config) (s : Circuit.St) (now : Nat) :
    Circuit.recordFailure cfg s now =
      ((Circuit.getFails s now).getD 0 + 1,
       { state := if (Circuit.getFails s now).getD 0 + 1 ≥ cfg.thld then some "open"
                  else s.state,
         failsVal := some ((Circuit.getFails s now).getD 0 + 1),
         failsExp := if (Circuit.getFails s now).getD 0 + 1 = 1 then some (now + cfg.winMs)
                     else if (Circuit.getFails s now).isSome then s.failsExp else none,
         openAt := if (Circuit.getFails s now).getD 0 + 1 ≥ cfg.thld then some now
                   else s.openAt,
         probeExp := s.probeExp }) := by
  by_cases h1 : (Circuit.getFails s now).getD 0 + 1 ≥ cfg.thld <;>
    by_cases h2 : (Circuit.getFails s now).getD 0 + 1 = 1 <;>
      simp [Circuit.recordFailure, h1, h2] <;>
        (try (split <;> simp))

/-- Both branches of `runMultiProviderAnalysis` (its success path and its
catch) write status `completed`, and both attach a result object. -/
theorem Analyzer.runMulti_status_completed (tier : Analyzer.Tier)
    (outcomes : List Analyzer.Outcome) :
    (Analyzer.runMultiProviderAnalysis tier outcomes).status = "completed" ∧
    (Analyzer.runMultiProviderAnalysis tier outcomes).result.isSome = true := by
  simp only [Analyzer.runMultiProviderAnalysis]
  split <;> exact ⟨rfl, rfl⟩

/-! ## Claim C1 -/

/-- C1 (counterexample): in `runMultiProviderAnalysis`, a job in which zero
providers succeed is stored with terminal status `completed` (not
`failed`), carrying `error: Analysis failed` inside its result — the
claimed transition to status `failed` with `AllProvidersFailed` does not
happen on this code path. -/
theorem c1_monolith_counterexample :
    (Analyzer.runMultiProviderAnalysis .pro [.fail "err1", .fail "err2"]).status
        = "completed" ∧
    (Analyzer.runMultiProviderAnalysis .pro [.fail "err1", .fail "err2"]).status
        ≠ "failed" ∧
    (Analyzer.runMultiProviderAnalysis .pro [.fail "err1", .fail "err2"]).result.map
        (fun r => r.error) = some (some "Analysis failed") := by
  refine ⟨rfl, by decide, rfl⟩

/-- C1 (amended): when zero providers succeed, `runMultiProviderAnalysis`
stores a `completed` record with a fallback score (5 free / 30 pro) and
`error: Analysis failed`, while `AIAnalyzerService.analyze`'s row (when
both provider checks fail) is `FAILED` with error
`All providers failed`. -/
theorem c1_all_providers_failed (tier : Analyzer.Tier)
    (outcomes : List Analyzer.Outcome) (input : String)
    (h : Analyzer.rawSuccesses outcomes = []) :
    (Analyzer.runMultiProviderAnalysis tier outcomes).status = "completed" ∧
    (Analyzer.runMultiProviderAnalysis tier outcomes).result =
      some { score := if tier = .free then 5 else 30,
             error := some "Analysis failed", providers := [] } ∧
    (AIAnalyzer.computeRow input none none).status = "FAILED" ∧
    (AIAnalyzer.computeRow input none none).error = some "All providers failed" := by
  have hs : Analyzer.successes tier outcomes = [] := by
    rw [Analyzer.successes_eq_map, h]; rfl
  refine ⟨(Analyzer.runMulti_status_completed _ _).1, ?_, rfl, rfl⟩
  simp [Analyzer.runMultiProviderAnalysis, hs]

/-- C1 (witness). -/
theorem c1_all_providers_failed_witness :
    (Analyzer.runMultiProviderAnalysis .free [.fail "boom"]).status = "completed" ∧
    (Analyzer.runMultiProviderAnalysis .free [.fail "boom"]).result =
      some { score := 5, error := some "Analysis failed", providers := [] } ∧
    (AIAnalyzer.computeRow "Nike" none none).status = "FAILED" ∧
    (AIAnalyzer.computeRow "Nike" none none).error = some "All providers failed" := by
  have h := c1_all_providers_failed .free [.fail "boom"] "Nike" rfl
  simpa using h

/-! ## Claim C2 -/

/-- C2 (counterexample): in the free tier, provider scores `[10, 20, 30]`
yield a completed job whose stored score is `60`, not the rounded mean
`20` — the claim's "regardless of tier" fails, because the free tier
rescales scores above 20 by `round(score / 5)` before averaging and
multiplies the rounded mean by 5 for display. -/
theorem c2_free_tier_counterexample :
    (Analyzer.runMultiProviderAnalysis .free
        [.ok ⟨"chatgpt", 10⟩, .ok ⟨"deepseek", 20⟩, .ok ⟨"mistral", 30⟩]).status
        = "completed" ∧
    (Analyzer.runMultiProviderAnalysis .free
        [.ok ⟨"chatgpt", 10⟩, .ok ⟨"deepseek", 20⟩, .ok ⟨"mistral", 30⟩]).result.map
        (fun r => r.score) = some 60 ∧
    (60 : ℚ) ≠ 20 := by
  refine ⟨rfl, ?_, by norm_num⟩
  simp [Analyzer.runMultiProviderAnalysis, Analyzer.successes, Analyzer.scaleForTier,
    List.filterMap_cons, Analyzer.displayMultiplier]
  norm_num

/-- C2 (amended): with at least one successful provider the job record is
`completed` in both tiers; in the pro tier the stored score is exactly
the rounded mean of the successful providers' scores; in the free tier
each successful score above 20 is first rescaled to `round(score / 5)`
and the stored score is the rounded mean of the rescaled scores
multiplied by 5. -/
theorem c2_score_is_rounded_mean (outcomes : List Analyzer.Outcome)
    (h : Analyzer.rawSuccesses outcomes ≠ []) :
    (Analyzer.runMultiProviderAnalysis .pro outcomes).status = "completed" ∧
    (Analyzer.runMultiProviderAnalysis .free outcomes).status = "completed" ∧
    (Analyzer.runMultiProviderAnalysis .pro outcomes).result.map (fun r => r.score) =
      some ((round (((Analyzer.rawSuccesses outcomes).map (fun r => r.score)).sum /
        ((Analyzer.rawSuccesses outcomes).length : ℚ)) : ℤ) : ℚ) ∧
    (Analyzer.runMultiProviderAnalysis .free outcomes).result.map (fun r => r.score) =
      some (((round (((Analyzer.rawSuccesses outcomes).map
          (fun r => (Analyzer.scaleForTier .free r).score)).sum /
        ((Analyzer.rawSuccesses outcomes).length : ℚ)) : ℤ) : ℚ) * 5) := by
  have hpro : Analyzer.successes .pro outcomes = Analyzer.rawSuccesses outcomes := by
    rw [Analyzer.successes_eq_map, funext Analyzer.scaleForTier_pro]
    exact List.map_id' _
  have hfree : Analyzer.successes .free outcomes =
      (Analyzer.rawSuccesses outcomes).map (Analyzer.scaleForTier .free) :=
    Analyzer.successes_eq_map _ _
  have hfe : (Analyzer.successes .free outcomes).isEmpty = false := by
    rw [hfree]
    simp [List.isEmpty_iff, h]
  have hpe : (Analyzer.successes .pro outcomes).isEmpty = false := by
    rw [hpro]
    simp [List.isEmpty_iff, h]
  refine ⟨(Analyzer.runMulti_status_completed _ _).1,
    (Analyzer.runMulti_status_completed _ _).1, ?_, ?_⟩
  · simp [Analyzer.runMultiProviderAnalysis, hpe, hpro, Analyzer.displayMultiplier, h]
  · simp [Analyzer.runMultiProviderAnalysis, hfe, hfree, Analyzer.displayMultiplier,
      List.map_map, Function.comp_def, h]

/-- C2 (witness). -/
theorem c2_score_is_rounded_mean_witness :
    (Analyzer.runMultiProviderAnalysis .pro
        [.ok ⟨"chatgpt", 10⟩, .ok ⟨"deepseek", 20⟩, .ok ⟨"mistral", 30⟩]).status
        = "completed" ∧
    (Analyzer.runMultiProviderAnalysis .pro
        [.ok ⟨"chatgpt", 10⟩, .ok ⟨"deepseek", 20⟩, .ok ⟨"mistral", 30⟩]).result.map
        (fun r => r.score) = some 20 := by
  have h := c2_score_is_rounded_mean
    [.ok ⟨"chatgpt", 10⟩, .ok ⟨"deepseek", 20⟩, .ok ⟨"mistral", 30⟩] (by decide)
  refine ⟨h.1, ?_⟩
  rw [h.2.2.1]
  norm_num [Analyzer.rawSuccesses, List.filterMap_cons]

/-! ## Claim C3 -/

/-- C3 (counterexample): with an open circuit whose delay has elapsed, the
first caller is admitted as the probe, but a second caller arriving
immediately afterwards (during the probe window, before the probe is
resolved) is also admitted: `shouldShortCircuit` returns `false` for it
as well, because the state key now reads `half`, not `open` — refuting
the claim that every other caller is short-circuited until the probe is
resolved. -/
theorem c3_second_caller_admitted :
    (Circuit.shouldShortCircuit Circuit.defaultConfig
        ⟨some "open", none, none, some 1, none⟩ 70000).1 = false ∧
    (Circuit.shouldShortCircuit Circuit.defaultConfig
        (Circuit.shouldShortCircuit Circuit.defaultConfig
          ⟨some "open", none, none, some 1, none⟩ 70000).2 70000).1 = false := by
  constructor <;> rfl

/-- C3 (amended): while the circuit is `open` and `now - openedAt` has not
exceeded `halfOpenDelay`, every call is short-circuited without state
change; once the delay has elapsed, a caller is admitted as the probe
exactly when the atomic `NX` probe key is free (the state moving to
`half` and the probe key being set for the window), and a caller that
still observes state `open` while the probe key is held is
short-circuited; but a caller that observes state `half` is admitted,
not short-circuited. -/
theorem c3_circuit_open_gate (cfg : Circuit.Config) (s : Circuit.St) (t now : Nat)
    (hstate : s.state = some "open") (ht : s.openAt = some t) (ht0 : t ≠ 0) :
    (now - t ≤ cfg.halfMs → Circuit.shouldShortCircuit cfg s now = (true, s)) ∧
    (now - t > cfg.halfMs → Circuit.probeAlive s now = true →
      Circuit.shouldShortCircuit cfg s now = (true, s)) ∧
    (now - t > cfg.halfMs → Circuit.probeAlive s now = false →
      Circuit.shouldShortCircuit cfg s now =
        (false, { s with state := some "half", probeExp := some (now + cfg.halfMs) })) ∧
    (∀ s2 : Circuit.St, s2.state = some "half" →
      Circuit.shouldShortCircuit cfg s2 now = (false, s2)) := by
  refine ⟨?_, ?_, ?_, ?_⟩
  · intro hle
    simp only [Circuit.shouldShortCircuit, hstate, ht]
    have : ¬(t = 0 ∨ now - t > cfg.halfMs) := by omega
    simp [this]
  · intro hgt hprobe
    simp only [Circuit.shouldShortCircuit, hstate, ht]
    have : t = 0 ∨ now - t > cfg.halfMs := Or.inr hgt
    simp [this, hprobe]
  · intro hgt hprobe
    simp only [Circuit.shouldShortCircuit, hstate, ht]
    have : t = 0 ∨ now - t > cfg.halfMs := Or.inr hgt
    simp [this, hprobe]
  · intro s2 hs2
    simp [Circuit.shouldShortCircuit, hs2]

/-- C3 (witness). -/
theorem c3_circuit_open_gate_witness :
    Circuit.shouldShortCircuit Circuit.defaultConfig
        ⟨some "open", none, none, some 1, none⟩ 70000 =
      (false, ⟨some "half", none, none, some 1, some 130000⟩) ∧
    Circuit.shouldShortCircuit Circuit.defaultConfig
        ⟨some "open", none, none, some 65000, none⟩ 70000 =
      (true, ⟨some "open", none, none, some 65000, none⟩) := by
  have h1 := c3_circuit_open_gate Circuit.defaultConfig
    ⟨some "open", none, none, some 1, none⟩ 1 70000 rfl rfl (by decide)
  have h2 := c3_circuit_open_gate Circuit.defaultConfig
    ⟨some "open", none, none, some 65000, none⟩ 65000 70000 rfl rfl (by decide)
  exact ⟨h1.2.2.1 (by decide) rfl, h2.1 (by decide)⟩

/-! ## Claim C4 -/

/-- C4 (counterexample): a failed probe whose failure counter has expired
from the window does not return the circuit to `open`: `recordFailure` on
a `half` circuit with no live counter increments to 1, which is below the
default threshold 5, so the state stays `half` and `openedAt` keeps its
old value 100 instead of being reset to the current time 200000. -/
theorem c4_failed_probe_counterexample :
    (Circuit.recordFailure Circuit.defaultConfig
        ⟨some "half", none, none, some 100, some 190000⟩ 200000).2.state
        = some "half" ∧
    (Circuit.recordFailure Circuit.defaultConfig
        ⟨some "half", none, none, some 100, some 190000⟩ 200000).2.state
        ≠ some "open" ∧
    (Circuit.recordFailure Circuit.defaultConfig
        ⟨some "half", none, none, some 100, some 190000⟩ 200000).2.openAt
        = some 100 := by
  refine ⟨rfl, by decide, rfl⟩

/-- C4 (amended): on a half-open circuit a successful probe closes the
circuit and clears the failure counter, open timestamp and probe key;
a failed probe returns the circuit to `open` with `openedAt` reset to
the current time only when the post-increment failure count reaches the
threshold — otherwise the state and `openedAt` are left unchanged (the
circuit stays `half`). -/
theorem c4_probe_resolution (cfg : Circuit.Config) (s : Circuit.St) (now : Nat)
    (hstate : s.state = some "half") :
    Circuit.recordSuccess s =
      { state := some "closed", failsVal := none, failsExp := none,
        openAt := none, probeExp := none } ∧
    ((Circuit.recordFailure cfg s now).1 ≥ cfg.thld →
      (Circuit.recordFailure cfg s now).2.state = some "open" ∧
      (Circuit.recordFailure cfg s now).2.openAt = some now) ∧
    ((Circuit.recordFailure cfg s now).1 < cfg.thld →
      (Circuit.recordFailure cfg s now).2.state = some "half" ∧
      (Circuit.recordFailure cfg s now).2.openAt = s.openAt) := by
  refine ⟨?_, ?_, ?_⟩
  · simp [Circuit.recordSuccess, hstate]
  · intro hge
    rw [Circuit.recordFailure_eq] at hge ⊢
    simp only at hge
    simp [hge]
  · intro hlt
    rw [Circuit.recordFailure_eq] at hlt ⊢
    simp only at hlt
    have hn : ¬((Circuit.getFails s now).getD 0 + 1 ≥ cfg.thld) := by omega
    simp [hn, hstate]

/-- C4 (witness). -/
theorem c4_probe_resolution_witness :
    Circuit.recordSuccess ⟨some "half", some 4, some 300000, some 100, some 250000⟩ =
      ⟨some "closed", none, none, none, none⟩ ∧
    (Circuit.recordFailure Circuit.defaultConfig
        ⟨some "half", some 4, some 300000, some 100, some 250000⟩ 200000).2.state
        = some "open" ∧
    (Circuit.recordFailure Circuit.defaultConfig
        ⟨some "half", some 4, some 300000, some 100, some 250000⟩ 200000).2.openAt
        = some 200000 := by
  have h := c4_probe_resolution Circuit.defaultConfig
    ⟨some "half", some 4, some 300000, some 100, some 250000⟩ 200000 rfl
  exact ⟨h.1, (h.2.1 (by decide)).1, (h.2.1 (by decide)).2⟩

/-! ## Claim C5 -/

/-- C5: from a closed circuit, `recordFailure` computes the post-increment
count as the live in-window count plus one, leaves the circuit `closed`
whenever that count is below the threshold, and transitions it to `open`
(recording `openedAt = now`) exactly when the count reaches the
threshold; `recordSuccess` on a closed circuit keeps it closed and
deletes the failure counter, so any later read of the counter is empty
and counting starts over. -/
theorem c5_threshold_exact (cfg : Circuit.Config) (s : Circuit.St) (now now2 : Nat)
    (hstate : s.state = some "closed") :
    (Circuit.recordFailure cfg s now).1 = (Circuit.getFails s now).getD 0 + 1 ∧
    ((Circuit.recordFailure cfg s now).1 < cfg.thld →
      (Circuit.recordFailure cfg s now).2.state = some "closed") ∧
    ((Circuit.recordFailure cfg s now).1 ≥ cfg.thld →
      (Circuit.recordFailure cfg s now).2.state = some "open" ∧
      (Circuit.recordFailure cfg s now).2.openAt = some now) ∧
    (Circuit.recordSuccess s).state = some "closed" ∧
    Circuit.getFails (Circuit.recordSuccess s) now2 = none := by
  refine ⟨?_, ?_, ?_, ?_, ?_⟩
  · rw [Circuit.recordFailure_eq]
  · intro hlt
    rw [Circuit.recordFailure_eq] at hlt ⊢
    simp only at hlt
    have hn : ¬((Circuit.getFails s now).getD 0 + 1 ≥ cfg.thld) := by omega
    simp [hn, hstate]
  · intro hge
    rw [Circuit.recordFailure_eq] at hge ⊢
    simp only at hge
    simp [hge]
  · simp [Circuit.recordSuccess, hstate]
  · simp [Circuit.recordSuccess, hstate, Circuit.getFails]

/-- C5 (witness). -/
theorem c5_threshold_exact_witness :
    (Circuit.recordFailure Circuit.defaultConfig
        ⟨some "closed", some 3, some 300000, none, none⟩ 200000).1 = 4 ∧
    (Circuit.recordFailure Circuit.defaultConfig
        ⟨some "closed", some 3, some 300000, none, none⟩ 200000).2.state
        = some "closed" ∧
    (Circuit.recordFailure Circuit.defaultConfig
        ⟨some "closed", some 4, some 300000, none, none⟩ 200000).1 = 5 ∧
    (Circuit.recordFailure Circuit.defaultConfig
        ⟨some "closed", some 4, some 300000, none, none⟩ 200000).2.state
        = some "open" ∧
    (Circuit.recordFailure Circuit.defaultConfig
        ⟨some "closed", some 4, some 300000, none, none⟩ 200000).2.openAt
        = some 200000 ∧
    Circuit.getFails (Circuit.recordSuccess
        ⟨some "closed", some 4, some 300000, none, none⟩) 200000 = none := by
  have h4 := c5_threshold_exact Circuit.defaultConfig
    ⟨some "closed", some 3, some 300000, none, none⟩ 200000 200000 rfl
  have h5 := c5_threshold_exact Circuit.defaultConfig
    ⟨some "closed", some 4, some 300000, none, none⟩ 200000 200000 rfl
  refine ⟨h4.1, ?_, h5.1, ?_, ?_, h5.2.2.2.2⟩
  · exact h4.2.1 (by rw [h4.1]; decide)
  · exact (h5.2.2.1 (by rw [h5.1]; decide)).1
  · exact (h5.2.2.1 (by rw [h5.1]; decide)).2

/-! ## Claim C6 -/

/-- The invocation count of the retry loop is bounded by the remaining
fuel plus one (per entry at position `i`). -/
theorem Retry.withRetryAux_count_le {τ : Type} (outcome : Nat → Except Retry.JsError τ)
    (canRetry : Retry.JsError → Bool) :
    ∀ (fuel i : Nat), (Retry.withRetryAux outcome canRetry fuel i).2 ≤ i + fuel + 1 := by
  intro fuel
  induction fuel with
  | zero =>
    intro i
    unfold Retry.withRetryAux
    cases outcome i <;> simp
  | succ f ih =>
    intro i
    unfold Retry.withRetryAux
    cases outcome i with
    | ok v => simp
    | error e =>
      by_cases hc : canRetry e = true
      · simp only [hc, if_true]
        have := ih (i + 1)
        omega
      · simp only [Bool.not_eq_true] at hc
        simp [hc]

/-- C6 (counterexample): `withRetry` called with `attempts = 2` on a
function that always fails with a retryable (timeout) error invokes the
function 3 times, not at most 2 — the loop `for (i = 0; i <= attempts)`
performs `attempts` retries after the first invocation, so the claimed
bound "at most maxAttempts invocations in total" is off by one. -/
theorem c6_attempts_counterexample :
    (Retry.withRetry
        (fun _ => (.error ⟨"timeout", none, none⟩ : Except Retry.JsError Unit)) 2
        Retry.defaultCanRetry).2 = 3 ∧ ¬(3 ≤ 2) := by
  exact ⟨rfl, by omega⟩

/-- C6 (amended): `withRetry` invokes the wrapped function at most
`attempts + 1` times in total; when the first invocation fails with an
error the classifier rejects, the function is invoked exactly once and
that error is rethrown; and `defaultCanRetry` rejects an HTTP 400/401
error whose message carries no network/timeout marker. -/
theorem c6_retry_bounds {τ : Type} (outcome : Nat → Except Retry.JsError τ)
    (attempts : Nat) (canRetry : Retry.JsError → Bool) :
    (Retry.withRetry outcome attempts canRetry).2 ≤ attempts + 1 ∧
    (∀ e : Retry.JsError, outcome 0 = .error e → canRetry e = false →
      Retry.withRetry outcome attempts canRetry = (.error e, 1)) ∧
    (∀ e : Retry.JsError, (e.status = some 400 ∨ e.status = some 401) →
      Retry.netRegexTest e.message = false → Retry.defaultCanRetry e = false) := by
  refine ⟨?_, ?_, ?_⟩
  · have := Retry.withRetryAux_count_le outcome canRetry attempts 0
    simpa [Retry.withRetry] using this
  · intro e h0 hnr
    unfold Retry.withRetry Retry.withRetryAux
    rw [h0]
    cases attempts with
    | zero => rfl
    | succ a => simp [hnr]
  · intro e hst hreg
    rcases hst with h | h <;>
      simp [Retry.defaultCanRetry, Retry.orFalsy, h, hreg]

/-- C6 (witness). -/
theorem c6_retry_bounds_witness :
    (Retry.withRetry
        (fun _ => (.error ⟨"Bad Request", some 400, none⟩ : Except Retry.JsError Unit)) 3
        Retry.defaultCanRetry).2 ≤ 3 + 1 ∧
    Retry.withRetry
        (fun _ => (.error ⟨"Bad Request", some 400, none⟩ : Except Retry.JsError Unit)) 3
        Retry.defaultCanRetry = (.error ⟨"Bad Request", some 400, none⟩, 1) ∧
    Retry.defaultCanRetry ⟨"Bad Request", some 400, none⟩ = false := by
  have h := c6_retry_bounds
    (fun _ => (.error ⟨"Bad Request", some 400, none⟩ : Except Retry.JsError Unit)) 3
    Retry.defaultCanRetry
  have hcr : Retry.defaultCanRetry ⟨"Bad Request", some 400, none⟩ = false := by
    have := h.2.2 ⟨"Bad Request", some 400, none⟩ (Or.inl rfl) (by decide)
    exact this
  exact ⟨h.1, h.2.1 ⟨"Bad Request", some 400, none⟩ rfl hcr, hcr⟩

/-! ## Claim C7 -/

/-- The tenant counter after `m + 1` submissions issued at time `now`
within one window holds `m + 1` with expiry `now + 60`. -/
theorem TenantRL.afterSubmits_closed (limit now : Nat) :
    ∀ m : Nat, TenantRL.afterSubmits limit now (m + 1) =
      ⟨some (m + 1), some (now + 60)⟩ := by
  intro m
  induction m with
  | zero =>
    simp [TenantRL.afterSubmits, TenantRL.checkTenantRate, TenantRL.getCount]
  | succ k ih =>
    show (TenantRL.checkTenantRate limit (TenantRL.afterSubmits limit now (k + 1)) now).2 = _
    rw [ih]
    simp [TenantRL.checkTenantRate, TenantRL.getCount]

/-- C7: starting from an empty window, the `(m+1)`-th submission of a
tenant at time `now` within the window is accepted exactly when `m + 1`
is at most the quota (so the quota-th is accepted and the next one is
rejected), the counter after `m ≥ 1` submissions holds exactly `m`, and
once the window has expired the counter restarts at 1 and the next
submission is accepted (for any positive quota) with a fresh 60-second
window. -/
theorem c7_fixed_window_quota (limit now m : Nat) (s : TenantRL.St)
    (c e now2 : Nat)
    (hc : s.count = some c) (he : s.exp = some e) (hexp : e ≤ now2)
    (hl : 1 ≤ limit) :
    (TenantRL.checkTenantRate limit (TenantRL.afterSubmits limit now m) now).1 =
      decide (m + 1 ≤ limit) ∧
    (1 ≤ m → TenantRL.afterSubmits limit now m = ⟨some m, some (now + 60)⟩) ∧
    TenantRL.checkTenantRate limit s now2 = (true, ⟨some 1, some (now2 + 60)⟩) := by
  refine ⟨?_, ?_, ?_⟩
  · cases m with
    | zero =>
      simp [TenantRL.afterSubmits, TenantRL.checkTenantRate, TenantRL.getCount]
    | succ k =>
      rw [TenantRL.afterSubmits_closed]
      simp [TenantRL.checkTenantRate, TenantRL.getCount]
  · intro hm
    cases m with
    | zero => omega
    | succ k => exact TenantRL.afterSubmits_closed limit now k
  · have hdead : TenantRL.getCount s now2 = none := by
      simp [TenantRL.getCount, hc, he]
      omega
    simp [TenantRL.checkTenantRate, hdead, hl]

/-- C7 (witness): with quota 3, the 3rd submission in the window is
accepted, the 4th is rejected, and a submission at the moment the window
has expired restarts the counter at 1 and is accepted. -/
theorem c7_fixed_window_quota_witness :
    (TenantRL.checkTenantRate 3 (TenantRL.afterSubmits 3 100 2) 100).1 = true ∧
    (TenantRL.checkTenantRate 3 (TenantRL.afterSubmits 3 100 3) 100).1 = false ∧
    TenantRL.checkTenantRate 3 ⟨some 3, some 160⟩ 160 = (true, ⟨some 1, some 220⟩) := by
  have h3 := c7_fixed_window_quota 3 100 2 ⟨some 3, some 160⟩ 3 160 160
    rfl rfl (by omega) (by omega)
  have h4 := c7_fixed_window_quota 3 100 3 ⟨some 3, some 160⟩ 3 160 160
    rfl rfl (by omega) (by omega)
  refine ⟨?_, ?_, h3.2.2⟩
  · rw [h3.1]; rfl
  · rw [h4.1]; rfl

/-! ## Claim C8 -/

/-- C8 (counterexample): the caches are not keyed by a case-folded,
trimmed normalization.  The inputs `Nike` and `nike` are identical after
case-folding (and trimming changes neither), yet submitting `nike` to
`AIAnalyzerService.analyze` right after `Nike` completed misses the
cache (whose key is the raw input) and invokes the providers again,
instead of returning the cached result without provider invocation. -/
theorem c8_normalization_counterexample :
    jsToLower "Nike" = jsToLower "nike" ∧
    (AIAnalyzer.analyze 3600
        (AIAnalyzer.analyze 3600 [] "Nike" (some 50) (some 60) 0).2.1
        "nike" (some 50) (some 60) 10).2.2 = true := by
  exact ⟨by decide, rfl⟩

/-- C8 (amended): `AIAnalyzerService.analyze` keys its cache by the raw
input and `AnalyzerService.analyzeWithOpenAI` by the lower-cased (not
trimmed) brand name.  For a repeat submission under the same key within
the TTL of the first completion, the second call returns exactly the
first call's result and performs no provider invocation: for `analyze`,
any input resubmitted as-is; for `analyzeWithOpenAI`, any brand name
agreeing with the first after lower-casing. -/
theorem c8_cache_hit_behaviour (ttl now1 now2 : Nat) (c : AIAnalyzer.Cache)
    (input : String) (ch g ch2 g2 : Option ℚ)
    (ca : AnalyzerSvc.Cache) (b1 b2 : String)
    (res fb fb2 : AnalyzerSvc.AnalysisResult)
    (call2 : Except String AnalyzerSvc.AnalysisResult)
    (hmiss : AIAnalyzer.cacheGet c ("visibility:" ++ input) now1 = none)
    (ht : now2 < now1 + ttl)
    (hlow : jsToLower b1 = jsToLower b2)
    (hmiss2 : AnalyzerSvc.cacheGet ca ("analysis:" ++ jsToLower b1) now1 = none)
    (ht2 : now2 < now1 + 3600) :
    AIAnalyzer.analyze ttl (AIAnalyzer.analyze ttl c input ch g now1).2.1
        input ch2 g2 now2 =
      ((AIAnalyzer.analyze ttl c input ch g now1).1,
       (AIAnalyzer.analyze ttl c input ch g now1).2.1, false) ∧
    AnalyzerSvc.analyzeWithOpenAI
        (AnalyzerSvc.analyzeWithOpenAI ca b1 true (.ok res) fb now1).2.1
        b2 true call2 fb2 now2 =
      (res, (AnalyzerSvc.analyzeWithOpenAI ca b1 true (.ok res) fb now1).2.1,
       false) := by
  constructor
  · simp only [AIAnalyzer.analyze, hmiss]
    simp [AIAnalyzer.cacheGet, List.lookup, ht]
  · simp only [AnalyzerSvc.analyzeWithOpenAI, Bool.not_true, hmiss2]
    simp only [if_neg (by simp : ¬(false = true))]
    rw [← hlow]
    simp [AnalyzerSvc.cacheGet, List.lookup, ht2]

/-- C8 (witness). -/
theorem c8_cache_hit_behaviour_witness :
    AIAnalyzer.analyze 3600
        (AIAnalyzer.analyze 3600 [] "Nike" (some 50) (some 60) 0).2.1
        "Nike" none none 10 =
      ((AIAnalyzer.analyze 3600 [] "Nike" (some 50) (some 60) 0).1,
       (AIAnalyzer.analyze 3600 [] "Nike" (some 50) (some 60) 0).2.1, false) ∧
    AnalyzerSvc.analyzeWithOpenAI
        (AnalyzerSvc.analyzeWithOpenAI [] "Nike" true (.ok ⟨80, 70, "ok"⟩)
          ⟨1, 1, "fb"⟩ 0).2.1
        "nIKE" true (.error "boom") ⟨2, 2, "fb2"⟩ 10 =
      (⟨80, 70, "ok"⟩,
       (AnalyzerSvc.analyzeWithOpenAI [] "Nike" true (.ok ⟨80, 70, "ok"⟩)
         ⟨1, 1, "fb"⟩ 0).2.1, false) := by
  exact c8_cache_hit_behaviour 3600 0 10 [] "Nike" (some 50) (some 60) none none
    [] "Nike" "nIKE" ⟨80, 70, "ok"⟩ ⟨1, 1, "fb"⟩ ⟨2, 2, "fb2"⟩ (.error "boom")
    rfl (by omega) (by decide) rfl (by omega)

/-! ## Claim C9 -/

/-- C9 (counterexample): the module results route returns the `result`
field for every known record, not only for completed jobs — a known
`PENDING` row is answered with 200, a non-completed status, and `result`
present (the whole row). -/
theorem c9_result_field_counterexample :
    (Controller.getResults [("j1", ⟨"PENDING", none, none⟩)] "j1").1 = 200 ∧
    (Controller.getResults [("j1", ⟨"PENDING", none, none⟩)] "j1").2.result.isSome
      = true ∧
    (Controller.getResults [("j1", ⟨"PENDING", none, none⟩)] "j1").2.status
      ≠ "completed" := by
  refine ⟨rfl, rfl, by decide⟩

/-- C9 (amended): in the monolith route, an unknown job id gets 404 and a
known one gets 200 with its stored record; the record written while the
job is processing has status `processing` and no result field, and every
terminal record written by `runMultiProviderAnalysis` has status
`completed` with the result present — so there `result` is present
exactly on completed records.  In the module route, an unknown id gets
404, while a known record is returned with its own status and the
`result` field always present regardless of status. -/
theorem c9_results_routes (store : List (String × Analyzer.JobRecord))
    (id idk : String) (rec : Analyzer.JobRecord)
    (db db2 : List (String × Controller.DbRecord)) (id2 id3 : String)
    (r : Controller.DbRecord)
    (tier : Analyzer.Tier) (outcomes : List Analyzer.Outcome)
    (hmiss : store.lookup id = none)
    (hhit : store.lookup idk = some rec)
    (hdb : db.lookup id2 = some r)
    (hdb2 : db2.lookup id3 = none) :
    Analyzer.getResults store id = (404, none) ∧
    Analyzer.getResults store idk = (200, some rec) ∧
    Analyzer.processingRecord.status = "processing" ∧
    Analyzer.processingRecord.result = none ∧
    (Analyzer.runMultiProviderAnalysis tier outcomes).status = "completed" ∧
    (Analyzer.runMultiProviderAnalysis tier outcomes).result.isSome = true ∧
    Controller.getResults db id2 = (200, { status := r.status, result := some r }) ∧
    Controller.getResults db2 id3 = (404, { status := "pending", result := none }) := by
  refine ⟨?_, ?_, rfl, rfl, (Analyzer.runMulti_status_completed tier outcomes).1,
    (Analyzer.runMulti_status_completed tier outcomes).2, ?_, ?_⟩
  · simp [Analyzer.getResults, hmiss]
  · simp [Analyzer.getResults, hhit]
  · simp [Controller.getResults, hdb]
  · simp [Controller.getResults, hdb2]

/-- C9 (witness). -/
theorem c9_results_routes_witness :
    Analyzer.getResults [("j1", Analyzer.processingRecord)] "nope" = (404, none) ∧
    Analyzer.getResults [("j1", Analyzer.processingRecord)] "j1" =
      (200, some Analyzer.processingRecord) ∧
    Controller.getResults [("k1", ⟨"PENDING", none, none⟩)] "k1" =
      (200, { status := "PENDING", result := some ⟨"PENDING", none, none⟩ }) ∧
    Controller.getResults [("k1", ⟨"PENDING", none, none⟩)] "nope" =
      (404, { status := "pending", result := none }) := by
  have h := c9_results_routes [("j1", Analyzer.processingRecord)] "nope" "j1"
    Analyzer.processingRecord [("k1", ⟨"PENDING", none, none⟩)]
    [("k1", ⟨"PENDING", none, none⟩)] "k1" "nope" ⟨"PENDING", none, none⟩
    .pro [] (by decide) (by decide) (by decide) (by decide)
  exact ⟨h.1, h.2.1, h.2.2.2.2.2.2.1, h.2.2.2.2.2.2.2⟩

/-! ## Claim C10 -/

/-- C10: `ProvidersService.analyzeWithProvider` resolves (never rejects)
on every failure path, always with `chatgpt_score = 0`, `google_score = 0`
and the `error` field set: an unconfigured provider resolves with
`Provider not available`; a throwing call resolves with the thrown
message; a reply containing no JSON object resolves with
`No valid JSON in response`; an unparseable JSON match resolves with the
parse error message. -/
theorem c10_never_rejects (providerName : String) (call : Providers.Call)
    (msg : String) :
    Providers.analyzeWithProvider providerName false call =
      { provider := providerName, chatgpt_score := 0, google_score := 0,
        analysis := "Provider not configured",
        error := some "Provider not available" } ∧
    Providers.analyzeWithProvider providerName true (.throws msg) =
      { provider := providerName, chatgpt_score := 0, google_score := 0,
        analysis := "Error: " ++ msg, error := some msg } ∧
    Providers.analyzeWithProvider providerName true (.returns none) =
      { provider := providerName, chatgpt_score := 0, google_score := 0,
        analysis := "Error: " ++ "No valid JSON in response",
        error := some "No valid JSON in response" } ∧
    Providers.analyzeWithProvider providerName true (.returns (some (.error msg))) =
      { provider := providerName, chatgpt_score := 0, google_score := 0,
        analysis := "Error: " ++ msg, error := some msg } := by
  exact ⟨rfl, rfl, rfl, rfl⟩
